import Mathlib

/-!
Verification of the release-it release-orchestration core against its
specification. The npm plugin (`lib/plugin/npm/npm.js`) is embedded from its
source. For the GitHub plugin only the test file is among the sampled
sources, so the retry policy, the GitHub `init` flow and the dry-run step
execution are modelled from the specification, as marked on each definition.
-/

namespace ReleaseIt

/-! ## Retry policy

Modelled from the spec: the retry wrapper used for remote API calls lives in
the GitHub plugin implementation, which is not among the sampled sources.
The spec (section 4.3) describes the classifier and the attempt budget. -/

/-- Modelled from the spec: an error from a remote operation carries an
HTTP-like status code and a message. -/
structure RemoteError where
  status : Nat
  message : String
deriving DecidableEq, Repr

/-- Modelled from the spec: server-side failures (5xx equivalents) are
transient; authentication/authorization failures (401/403) and not-found
(404), like every other non-5xx status, are permanent. -/
def isTransientStatus (status : Nat) : Bool :=
  500 ≤ status

/-- Modelled from the spec: the typed client error message format
`"<status> (<message>)"`. -/
def clientErrorMessage (e : RemoteError) : String :=
  toString e.status ++ " (" ++ e.message ++ ")"

/-- Modelled from the spec: the retry wrapper loop. `op n` is the outcome of
the `n`-th invocation (0-based) of the wrapped operation, `calls` the number
of invocations so far, `fuel` the number of attempts still allowed. A
permanent failure is rethrown immediately as the typed client error; a
transient one is retried until the attempt budget is exhausted, after which
the last error is rethrown in the same format. The total invocation count is
returned with the outcome. -/
def retryRun (op : Nat → Except RemoteError α) : Nat → Nat → Nat × Except String α
  | calls, 0 => (calls, Except.error "retry: no attempts configured")
  | calls, fuel + 1 =>
    match op calls with
    | Except.ok a => (calls + 1, Except.ok a)
    | Except.error e =>
      if isTransientStatus e.status && fuel != 0 then
        retryRun op (calls + 1) fuel
      else
        (calls + 1, Except.error (clientErrorMessage e))

/-- Modelled from the spec: run an operation under the retry policy with a
maximum of `maxAttempts` attempts. -/
def retryWrap (op : Nat → Except RemoteError α) (maxAttempts : Nat) : Nat × Except String α :=
  retryRun op 0 maxAttempts

/-- Claim C1: a remote call failing with a permanent-class status (401 or
404) is invoked exactly once by the retry wrapper, and the final error is the
typed client error in the `"<status> (<message>)"` format. -/
theorem retry_permanent_single_invocation {α : Type} (op : Nat → Except RemoteError α)
    (status : Nat) (msg : String) (maxAttempts : Nat)
    (hop : op 0 = Except.error ⟨status, msg⟩)
    (hperm : status = 401 ∨ status = 404)
    (hpos : 1 ≤ maxAttempts) :
    retryWrap op maxAttempts =
      (1, Except.error (toString status ++ " (" ++ msg ++ ")")) := by
  cases maxAttempts with
  | zero => exact absurd hpos (by decide)
  | succ k =>
    have ht : isTransientStatus status = false := by
      rcases hperm with rfl | rfl <;> rfl
    simp [retryWrap, retryRun, hop, ht, clientErrorMessage]

/-- Witness for C1 at a concrete input: a call always failing with 404 under
a 3-attempt budget is invoked once and yields `404 (Not found)`. -/
theorem retry_permanent_single_invocation_witness :
    retryWrap (fun _ => (Except.error ⟨404, "Not found"⟩ : Except RemoteError Unit)) 3 =
      (1, Except.error "404 (Not found)") :=
  retry_permanent_single_invocation _ 404 "Not found" 3 rfl (Or.inr rfl) (by decide)

/-- Claim C2: a remote call failing with a transient-class status (500) under
a retry policy with a maximum of 3 attempts is invoked exactly 3 times, and
the last error is rethrown as the typed client error in the
`"<status> (<message>)"` format. -/
theorem retry_transient_three_attempts {α : Type} (op : Nat → Except RemoteError α)
    (msg : String) (hop : ∀ n, op n = Except.error ⟨500, msg⟩) :
    retryWrap op 3 = (3, Except.error (toString 500 ++ " (" ++ msg ++ ")")) := by
  have ht : isTransientStatus 500 = true := rfl
  simp [retryWrap, retryRun, hop, ht, clientErrorMessage]

/-- Witness for C2 at a concrete input: a call always failing with 500 under
a 3-attempt budget is invoked 3 times and yields `500 (Request failed)`. -/
theorem retry_transient_three_attempts_witness :
    retryWrap (fun _ => (Except.error ⟨500, "Request failed"⟩ : Except RemoteError Unit)) 3 =
      (3, Except.error "500 (Request failed)") :=
  retry_transient_three_attempts _ "Request failed" (fun _ => rfl)

/-! ## npm plugin: version parsing and release-channel resolution

Embedded from `lib/plugin/npm/npm.js`. The helper `parseVersion` lives in
`lib/util.js`, which is not among the sampled sources, and is modelled from
the spec. -/

/-- Constant `DEFAULT_TAG` from `npm.js`. -/
def DEFAULT_TAG : String := "latest"

/-- Constant `DEFAULT_TAG_PRERELEASE` from `npm.js`. -/
def DEFAULT_TAG_PRERELEASE : String := "next"

/-- Constant `REGISTRY_TIMEOUT` from `npm.js` (milliseconds). -/
def REGISTRY_TIMEOUT : Nat := 10000

/-- Modelled from the spec: the result of parsing a semantic-version string
(section 3 of the spec): whether the version has a pre-release part, and the
leading pre-release identifier when that identifier is non-numeric (for
example `next` for `1.0.0-next.1`, and no identifier for `1.0.0-2`). -/
structure ParsedVersion where
  isPreRelease : Bool
  preReleaseId : Option String
deriving DecidableEq, Repr

/-- The characters after the first occurrence of `sep`, when `sep` occurs. -/
def charsAfterFirst (sep : Char) : List Char → Option (List Char)
  | [] => none
  | c :: cs => if c = sep then some cs else charsAfterFirst sep cs

/-- Modelled from the spec: `parseVersion` from the unsampled `lib/util.js`.
Build metadata (after `+`) is ignored; the pre-release part is everything
after the first `-` of the remainder; the pre-release identifier is the
leading dot-separated component of that part when it is non-numeric. -/
def parseVersion (raw : String) : ParsedVersion :=
  let core := raw.data.takeWhile (fun c => !(c = '+'))
  match charsAfterFirst '-' core with
  | none => ⟨false, none⟩
  | some pre =>
    if pre.isEmpty then ⟨false, none⟩
    else
      let firstId := pre.takeWhile (fun c => !(c = '.'))
      ⟨true,
        if !firstId.isEmpty && !(firstId.all Char.isDigit) then some (String.mk firstId)
        else none⟩

/-- JavaScript truthiness for an optional string in an `a || b` chain:
`undefined` and the empty string are falsy. -/
def truthy (o : Option String) : Option String :=
  match o with
  | some s => if s = "" then none else some s
  | none => none

/-- Embeds `getRegistryPreReleaseTags`: the response to
`npm view <name> dist-tags --json` is a failed command (`.error`), output
that fails to parse as JSON (`.ok none`), or the parsed dist-tags keys
(`.ok (some keys)`); failures yield the empty list, and every key other than
the default tag is kept. -/
def getRegistryPreReleaseTags (resp : Except Unit (Option (List String))) : List String :=
  match resp with
  | Except.error _ => []
  | Except.ok none => []
  | Except.ok (some keys) => keys.filter (fun tag => !(tag = DEFAULT_TAG))

/-- Embeds `guessPreReleaseTag`: the first pre-release tag obtained from the
registry when there is one and it is truthy, otherwise the hardcoded default
pre-release tag (with a warning). -/
def guessPreReleaseTag (preTags : List String) : String :=
  match preTags with
  | [] => DEFAULT_TAG_PRERELEASE
  | t :: _ => if t = "" then DEFAULT_TAG_PRERELEASE else t

/-- Embeds `resolveTag`: the default tag for a non-pre-release version;
otherwise the configured tag, else the version pre-release identifier, else
the tag guessed from the registry. `preTags` is the list that
`guessPreReleaseTag` receives from `getRegistryPreReleaseTags`. -/
def resolveTag (optTag : Option String) (preTags : List String) (version : String) : String :=
  if (parseVersion version).isPreRelease = false then
    DEFAULT_TAG
  else
    match truthy optTag with
    | some t => t
    | none =>
      match (parseVersion version).preReleaseId with
      | some p => p
      | none => guessPreReleaseTag preTags

/-- Embeds the tag computation in `bump`:
`const tag = this.options.tag || (await this.resolveTag(version))`. -/
def bumpTag (optTag : Option String) (preTags : List String) (version : String) : String :=
  match truthy optTag with
  | some t => t
  | none => resolveTag optTag preTags version

/-- The release-channel cascade exactly as the claim states it: a version
with no pre-release part gets the default channel; otherwise the explicitly
configured tag if set, else the version pre-release identifier, else the
first pre-release channel returned by the registry, else the hardcoded
default pre-release channel. -/
def specReleaseChannel (optTag : Option String) (preTags : List String) (version : String) :
    String :=
  if (parseVersion version).isPreRelease = false then
    DEFAULT_TAG
  else
    match truthy optTag with
    | some t => t
    | none =>
      match (parseVersion version).preReleaseId with
      | some p => p
      | none => preTags.head?.getD DEFAULT_TAG_PRERELEASE

/-- Claim C3 (counterexample): the claim applies its cascade to `bump` as
well, so for version `2.0.2` (no pre-release part) it requires the default
channel `latest` even when a tag is configured; but `bump` applies the
configured tag first, so with configured tag `beta` the stored channel is
`beta`. -/
theorem bumpTag_configured_tag_overrides_default :
    bumpTag (some "beta") [] "2.0.2" = "beta" ∧
      specReleaseChannel (some "beta") [] "2.0.2" = DEFAULT_TAG ∧
      bumpTag (some "beta") [] "2.0.2" ≠ specReleaseChannel (some "beta") [] "2.0.2" := by
  refine ⟨rfl, rfl, ?_⟩
  decide

/-- Helper: when the registry never reports an empty-string tag, the guessed
tag is the first registry pre-release tag, defaulting to the hardcoded
pre-release tag. -/
theorem guessPreReleaseTag_eq_head (preTags : List String) (h : "" ∉ preTags) :
    guessPreReleaseTag preTags = preTags.head?.getD DEFAULT_TAG_PRERELEASE := by
  cases preTags with
  | nil => rfl
  | cons t ts =>
    have ht : ¬(t = "") := fun h0 => h (h0 ▸ List.mem_cons_self t ts)
    simp [guessPreReleaseTag, ht]

/-- Claim C3 (amended): `resolveTag` resolves the release channel exactly by
the claimed cascade (assuming the registry reports no empty-string tag), and
`bump` stores the explicitly configured tag when one is set — overriding the
default channel even for non-pre-release versions — and otherwise stores the
cascade result. -/
theorem resolveTag_matches_spec_cascade (optTag : Option String) (preTags : List String)
    (version : String) (h : "" ∉ preTags) :
    resolveTag optTag preTags version = specReleaseChannel optTag preTags version ∧
      bumpTag optTag preTags version =
        (truthy optTag).getD (specReleaseChannel optTag preTags version) := by
  have h1 : resolveTag optTag preTags version = specReleaseChannel optTag preTags version := by
    unfold resolveTag specReleaseChannel
    rw [guessPreReleaseTag_eq_head preTags h]
  refine ⟨h1, ?_⟩
  unfold bumpTag
  cases htag : truthy optTag with
  | some t => simp
  | none => simpa using h1

/-- Witness for the amended C3 at a concrete input: version `1.0.0-2` has a
numeric-only pre-release part, no tag is configured, and the registry knows
the pre-release channel `alpha`, which is resolved. -/
theorem resolveTag_matches_spec_cascade_witness :
    resolveTag none ["alpha"] "1.0.0-2" = specReleaseChannel none ["alpha"] "1.0.0-2" ∧
      bumpTag none ["alpha"] "1.0.0-2" =
        (truthy none).getD (specReleaseChannel none ["alpha"] "1.0.0-2") :=
  resolveTag_matches_spec_cascade none ["alpha"] "1.0.0-2" (by decide)

/-! ## npm plugin: registry checks and init -/

/-- The suffix of the second list after the first occurrence of `pat`, when
`pat` occurs as a contiguous sublist. -/
def suffixAfterFirst (pat : List Char) : List Char → Option (List Char)
  | [] => none
  | c :: cs =>
    if pat.isPrefixOf (c :: cs) then some ((c :: cs).drop pat.length)
    else suffixAfterFirst pat cs

/-- Whether `pat` occurs in the second list as a contiguous sublist. -/
def listContains (pat : List Char) : List Char → Bool
  | [] => pat.isEmpty
  | c :: cs => pat.isPrefixOf (c :: cs) || listContains pat cs

/-- Whether `pat` occurs in `s` as a contiguous substring. -/
def containsSubstring (s pat : String) : Bool :=
  listContains pat.data s.data

/-- A character the JavaScript regex dot does not match: a line break. -/
def isDotExcluded (c : Char) : Bool :=
  c = '\n' || c = '\r' || c = '\u2028' || c = '\u2029'

/-- The maximal line-break-free runs of a character list, i.e. its lines. -/
def splitAtLineBreaks : List Char → List (List Char)
  | [] => [[]]
  | c :: cs =>
    let r := splitAtLineBreaks cs
    if isDotExcluded c then [] :: r
    else
      match r with
      | [] => [[c]]
      | l :: ls => (c :: l) :: ls

/-- Whether one line contains `404` followed, on that same line, by
`ping not found` or `No content for path`. -/
def lineMatches404Phrase (line : List Char) : Bool :=
  match suffixAfterFirst "404".data line with
  | some rest =>
    listContains "ping not found".data rest || listContains "No content for path".data rest
  | none => false

/-- Embeds the regular expression in `isRegistryUp`:
`code E40[04]` or `404` followed by `ping not found` or `No content for path`.
The dot in the pattern does not cross a line break, so the second alternative
must match within a single line. -/
def matchesPingUnsupported (err : String) : Bool :=
  containsSubstring err "code E400" || containsSubstring err "code E404" ||
    (splitAtLineBreaks err.data).any lineMatches404Phrase

/-- Embeds the regular expression in `isAuthenticated`: `code E40[04]`. -/
def matchesE40x (err : String) : Bool :=
  containsSubstring err "code E400" || containsSubstring err "code E404"

/-- Embeds `isRegistryUp` (lines 91–104 of `npm.js`): a successful `npm ping`
passes; a failure whose output matches the unsupported-command pattern is
coerced to success with a warning; any other failure fails the check. The
check result is returned together with the warnings logged. -/
def isRegistryUp (pingResult : Except String Unit) : Bool × List String :=
  match pingResult with
  | Except.ok _ => (true, [])
  | Except.error err =>
    if matchesPingUnsupported err then
      (true, ["Ignoring unsupported `npm ping` command response."])
    else (false, [])

/-- Embeds `isAuthenticated` (lines 106–120 of `npm.js`): a successful
`npm whoami` passes; a failure whose output matches `code E40[04]` is coerced
to success with a warning; any other failure fails the check. -/
def isAuthenticated (whoamiResult : Except String Unit) : Bool × List String :=
  match whoamiResult with
  | Except.ok _ => (true, [])
  | Except.error err =>
    if matchesE40x err then
      (true, ["Ignoring unsupported `npm whoami` command response."])
    else (false, [])

/-- Modelled from the spec: the typed errors the npm `init` phase can raise.
`timeout` is the timeout error that `rejectAfter` (unsampled `lib/util.js`)
rejects with when the validation bundle misses its deadline; `npmTimeout` is
the `npmTimeoutError` thrown when the registry is unreachable and `auth` the
`npmAuthError` thrown when the user is not authenticated (both from the
unsampled `lib/errors.js`). -/
inductive NpmInitError where
  | timeout (ms : Nat)
  | npmTimeout (ms : Nat)
  | auth
deriving DecidableEq, Repr

/-- Embeds the control flow of `init` (lines 30–62 of `npm.js`) with the
asynchronous environment made explicit: `t1 t2 t3` are the resolution times
of the three concurrent validations (registry reachable, authenticated,
latest registry version) and `pingResult`/`whoamiResult` the underlying
command outcomes. The race with `rejectAfter REGISTRY_TIMEOUT` rejects when
the bundle resolves later than the budget. Context population and warning
output are omitted. -/
def npmInit (publishOpt : Bool) (isPrivate : Bool) (skipChecks : Bool)
    (t1 t2 t3 : Nat) (pingResult whoamiResult : Except String Unit) :
    Except NpmInitError Unit :=
  if publishOpt = false || isPrivate then Except.ok ()
  else if skipChecks then Except.ok ()
  else if REGISTRY_TIMEOUT < max t1 (max t2 t3) then
    Except.error (NpmInitError.timeout REGISTRY_TIMEOUT)
  else if (isRegistryUp pingResult).1 = false then
    Except.error (NpmInitError.npmTimeout REGISTRY_TIMEOUT)
  else if (isAuthenticated whoamiResult).1 = false then
    Except.error NpmInitError.auth
  else Except.ok ()

/-- Claim C8: when the three concurrent validations do not all resolve within
the overall timeout budget, `init` fails with the timeout error of the race,
and that error is distinct from the errors individual validation failures
raise (the authentication error, and the registry-unreachable error). -/
theorem npmInit_timeout_error_distinct (t1 t2 t3 : Nat)
    (pingResult whoamiResult : Except String Unit)
    (h : REGISTRY_TIMEOUT < max t1 (max t2 t3)) :
    npmInit true false false t1 t2 t3 pingResult whoamiResult =
        Except.error (NpmInitError.timeout REGISTRY_TIMEOUT) ∧
      NpmInitError.timeout REGISTRY_TIMEOUT ≠ NpmInitError.auth ∧
      NpmInitError.timeout REGISTRY_TIMEOUT ≠ NpmInitError.npmTimeout REGISTRY_TIMEOUT := by
  refine ⟨?_, by simp, by simp⟩
  simp [npmInit, h]

/-- Witness for C8 at a concrete input: one validation resolves only after
10001 ms against the 10000 ms budget. -/
theorem npmInit_timeout_error_distinct_witness :
    npmInit true false false 10001 0 0 (Except.ok ()) (Except.ok ()) =
        Except.error (NpmInitError.timeout REGISTRY_TIMEOUT) ∧
      NpmInitError.timeout REGISTRY_TIMEOUT ≠ NpmInitError.auth ∧
      NpmInitError.timeout REGISTRY_TIMEOUT ≠ NpmInitError.npmTimeout REGISTRY_TIMEOUT :=
  npmInit_timeout_error_distinct 10001 0 0 (Except.ok ()) (Except.ok ()) (by decide)

/-- Claim C9: a `ping`/`whoami` failure matching the unsupported-command
(404-class) pattern is coerced to success with a warning instead of failing
the check, and `init` does not fail on that account. -/
theorem registry_unsupported_coerced (pingErr whoamiErr : String) (t1 t2 t3 : Nat)
    (h1 : matchesPingUnsupported pingErr = true)
    (h2 : matchesE40x whoamiErr = true)
    (ht : max t1 (max t2 t3) ≤ REGISTRY_TIMEOUT) :
    (isRegistryUp (Except.error pingErr)).1 = true ∧
      (isRegistryUp (Except.error pingErr)).2 =
        ["Ignoring unsupported `npm ping` command response."] ∧
      (isAuthenticated (Except.error whoamiErr)).1 = true ∧
      (isAuthenticated (Except.error whoamiErr)).2 =
        ["Ignoring unsupported `npm whoami` command response."] ∧
      npmInit true false false t1 t2 t3 (Except.error pingErr) (Except.error whoamiErr) =
        Except.ok () := by
  have hr : isRegistryUp (Except.error pingErr) =
      (true, ["Ignoring unsupported `npm ping` command response."]) := by
    simp [isRegistryUp, h1]
  have ha : isAuthenticated (Except.error whoamiErr) =
      (true, ["Ignoring unsupported `npm whoami` command response."]) := by
    simp [isAuthenticated, h2]
  refine ⟨by simp [hr], by simp [hr], by simp [ha], by simp [ha], ?_⟩
  simp [npmInit, Nat.not_lt.mpr ht, hr, ha]

/-- Witness for C9 at a concrete input: both commands fail with
`npm ERR! code E404` and all validations resolve instantly. -/
theorem registry_unsupported_coerced_witness :
    (isRegistryUp (Except.error "npm ERR! code E404")).1 = true ∧
      (isRegistryUp (Except.error "npm ERR! code E404")).2 =
        ["Ignoring unsupported `npm ping` command response."] ∧
      (isAuthenticated (Except.error "npm ERR! code E404")).1 = true ∧
      (isAuthenticated (Except.error "npm ERR! code E404")).2 =
        ["Ignoring unsupported `npm whoami` command response."] ∧
      npmInit true false false 0 0 0 (Except.error "npm ERR! code E404")
          (Except.error "npm ERR! code E404") =
        Except.ok () :=
  registry_unsupported_coerced "npm ERR! code E404" "npm ERR! code E404" 0 0 0
    (by decide) (by decide) (by decide)

/-! ## npm plugin: publish and release -/

/-- The outcome of one attempted `npm publish` command: success, a
one-time-password failure, or any other failure. -/
inductive ExecOutcome where
  | success
  | otpFail
  | otherFail
deriving DecidableEq, Repr

/-- The observable result of the `publish`/`release` phase: the final
`isReleased` flag, whether the phase resolved or threw, the number of
`npm publish` commands executed, and the warnings logged. -/
structure PublishResult where
  isReleased : Bool
  outcome : Except Unit Unit
  execCount : Nat
  warnings : List String
deriving Repr

/-- Embeds `publish` (lines 176–203 of `npm.js`): a private package is
skipped with a warning and resolves as a no-op; otherwise `npm publish` runs
and success sets `isReleased`, a one-time-password failure re-enters
`publish` through the OTP callback with a fresh OTP when a callback exists,
and any other failure is rethrown. `outcomes` lists the result of each
successive `npm publish` command; `hasOtp` records whether an OTP was passed
to this (re-)entry; `isReleased` is the flag value on entry. -/
def npmPublish (isPrivate hasOtpCallback : Bool) :
    List ExecOutcome → Bool → Bool → PublishResult
  | [], _, isReleased =>
    if isPrivate then ⟨isReleased, Except.ok (), 0, ["Skip publish: package is private."]⟩
    else ⟨isReleased, Except.error (), 0, []⟩
  | o :: rest, hasOtp, isReleased =>
    if isPrivate then ⟨isReleased, Except.ok (), 0, ["Skip publish: package is private."]⟩
    else
      match o with
      | ExecOutcome.success => ⟨true, Except.ok (), 1, []⟩
      | ExecOutcome.otherFail => ⟨isReleased, Except.error (), 1, []⟩
      | ExecOutcome.otpFail =>
        let warn := if hasOtp then ["The provided OTP is incorrect or has expired."] else []
        if hasOtpCallback then
          let r := npmPublish isPrivate hasOtpCallback rest true isReleased
          ⟨r.isReleased, r.outcome, r.execCount + 1, warn ++ r.warnings⟩
        else ⟨isReleased, Except.error (), 1, warn⟩

/-- Embeds `release` (lines 84–89 of `npm.js`): a no-op when the `publish`
option is `false`, otherwise `publish` runs through the step runner with the
OTP callback. `hasOtp` records whether an OTP was configured up front. -/
def npmRelease (publishOpt isPrivate hasOtpCallback hasOtp : Bool)
    (outcomes : List ExecOutcome) (isReleased : Bool) : PublishResult :=
  if publishOpt = false then ⟨isReleased, Except.ok (), 0, []⟩
  else npmPublish isPrivate hasOtpCallback outcomes hasOtp isReleased

/-- Claim C7: `publish` sets `isReleased` only on confirmed success of the
publish action and never resets it — once the flag is `true` it stays `true`,
and when it was `false` on entry it is `true` afterwards only for a
non-private package whose publish resolved successfully. -/
theorem npmPublish_isReleased_invariant (isPrivate hasOtpCallback : Bool)
    (outcomes : List ExecOutcome) (hasOtp b : Bool) :
    (b = true → (npmPublish isPrivate hasOtpCallback outcomes hasOtp b).isReleased = true) ∧
      ((npmPublish isPrivate hasOtpCallback outcomes hasOtp b).isReleased = true →
        b = true ∨ (isPrivate = false ∧
          (npmPublish isPrivate hasOtpCallback outcomes hasOtp b).outcome = Except.ok ())) := by
  induction outcomes generalizing hasOtp with
  | nil =>
    cases isPrivate <;> simp [npmPublish]
  | cons o rest ih =>
    cases hpriv : isPrivate with
    | true => simp [npmPublish]
    | false =>
      cases o with
      | success => simp [npmPublish]
      | otherFail => simp [npmPublish]
      | otpFail =>
        cases hcb : hasOtpCallback with
        | false => simp [npmPublish]
        | true =>
          have := ih true
          rw [hpriv, hcb] at this
          simpa [npmPublish] using this

/-- Witness for C7 at a concrete input: a publish that succeeds on the second
attempt (after an OTP retry) of an already-released, non-private package
keeps `isReleased` set. -/
theorem npmPublish_isReleased_invariant_witness :
    (npmPublish false true [ExecOutcome.otpFail, ExecOutcome.success] false true).isReleased =
      true :=
  (npmPublish_isReleased_invariant false true [ExecOutcome.otpFail, ExecOutcome.success]
    false true).1 rfl

/-- Claim C10: for a private package, `publish` logs the skip warning,
resolves successfully, executes no `npm publish` command and leaves
`isReleased` untouched; in particular `release` on an unreleased private
package resolves without error and with `isReleased` still `false`. -/
theorem npmPublish_private_skips (hasOtpCallback hasOtp b : Bool)
    (outcomes : List ExecOutcome) :
    npmPublish true hasOtpCallback outcomes hasOtp b =
        ⟨b, Except.ok (), 0, ["Skip publish: package is private."]⟩ ∧
      npmRelease true true hasOtpCallback hasOtp outcomes false =
        ⟨false, Except.ok (), 0, ["Skip publish: package is private."]⟩ := by
  constructor
  · cases outcomes <;> simp [npmPublish]
  · cases outcomes <;> simp [npmRelease, npmPublish]

/-! ## GitHub plugin: init

Modelled from the spec: the implementation in `lib/plugin/github/GitHub.js`
is not among the sampled sources; only its test file is. -/

/-- Environment-variable lookup over an explicit environment. -/
def lookupEnv (env : List (String × String)) (key : String) : Option String :=
  (env.find? (fun p => p.1 == key)).map (fun p => p.2)

/-- A network-backed precondition check of the GitHub `init` phase. -/
inductive GhCheck where
  | authenticate
  | collaborator
deriving DecidableEq, Repr

/-- Modelled from the spec: the typed errors the GitHub `init` phase raises —
a `ConfigError` for a missing token variable, a client error otherwise. -/
inductive GhError where
  | configError (message : String)
  | clientError (message : String)
deriving DecidableEq, Repr

/-- The observable outcome of the GitHub `init` phase: the result, the
network checks that were invoked (in order), and the identity recorded in the
context. -/
structure GhInitOutcome where
  result : Except GhError Unit
  checks : List GhCheck
  username : Option String
deriving Repr

/-- Modelled from the spec: the GitHub `init` flow. The required token
variable is read first and its absence is a fatal `ConfigError` naming the
exact variable, raised before any network call. A recognized CI environment
(`GITHUB_ACTIONS` together with `GITHUB_ACTOR`) bypasses the authentication
and collaborator checks and records the environment-supplied actor as the
identity. Otherwise the authentication check runs (`authResult` is the
authenticated username, when any) followed by the collaborator check
(`collabOk`), and either failure is fatal. -/
def githubInit (env : List (String × String)) (tokenRef : String) (repo : String)
    (skipChecks : Bool) (authResult : Option String) (collabOk : Bool) : GhInitOutcome :=
  match lookupEnv env tokenRef with
  | none =>
    ⟨Except.error (GhError.configError
        ("Environment variable \"" ++ tokenRef ++ "\" is required for GitHub releases")),
      [], none⟩
  | some _ =>
    if skipChecks then ⟨Except.ok (), [], none⟩
    else
      match lookupEnv env "GITHUB_ACTIONS", lookupEnv env "GITHUB_ACTOR" with
      | some _, some actor => ⟨Except.ok (), [], some actor⟩
      | _, _ =>
        match authResult with
        | none =>
          ⟨Except.error (GhError.clientError
              ("Could not authenticate with GitHub using environment variable \"" ++
                tokenRef ++ "\".")),
            [GhCheck.authenticate], none⟩
        | some user =>
          if collabOk then ⟨Except.ok (), [GhCheck.authenticate, GhCheck.collaborator], some user⟩
          else
            ⟨Except.error (GhError.clientError
                ("User " ++ user ++ " is not a collaborator for " ++ repo ++ ".")),
              [GhCheck.authenticate, GhCheck.collaborator], some user⟩

/-- Claim C4: when the required token environment variable is absent, `init`
fails with a `ConfigError` whose message names that exact variable, and no
network check is invoked before the failure. -/
theorem githubInit_missing_token (env : List (String × String)) (tokenRef repo : String)
    (skipChecks : Bool) (authResult : Option String) (collabOk : Bool)
    (h : lookupEnv env tokenRef = none) :
    githubInit env tokenRef repo skipChecks authResult collabOk =
      ⟨Except.error (GhError.configError
          ("Environment variable \"" ++ tokenRef ++ "\" is required for GitHub releases")),
        [], none⟩ := by
  simp [githubInit, h]

/-- Witness for C4 at a concrete input: with an empty environment,
`MY_GITHUB_TOKEN` is absent and `init` fails with the `ConfigError` naming it
without invoking any check. -/
theorem githubInit_missing_token_witness :
    githubInit [] "MY_GITHUB_TOKEN" "user/repo" false (some "john") true =
      ⟨Except.error (GhError.configError
          ("Environment variable \"MY_GITHUB_TOKEN\" is required for GitHub releases")),
        [], none⟩ :=
  githubInit_missing_token [] "MY_GITHUB_TOKEN" "user/repo" false (some "john") true rfl

/-- Claim C6: with a trusted CI environment marker present (`GITHUB_ACTIONS`
with `GITHUB_ACTOR`) and the token present, `init` invokes neither the
authentication check nor the collaborator check, and the identity recorded in
the context equals the environment-supplied actor. -/
theorem githubInit_ci_bypass (env : List (String × String)) (tokenRef repo : String)
    (authResult : Option String) (collabOk : Bool) (tok ci actor : String)
    (htok : lookupEnv env tokenRef = some tok)
    (hci : lookupEnv env "GITHUB_ACTIONS" = some ci)
    (hactor : lookupEnv env "GITHUB_ACTOR" = some actor) :
    githubInit env tokenRef repo false authResult collabOk = ⟨Except.ok (), [], some actor⟩ := by
  simp [githubInit, htok, hci, hactor]

/-- Witness for C6 at a concrete input: on GitHub Actions with actor
`release-it`, no check is invoked and the recorded identity is `release-it`. -/
theorem githubInit_ci_bypass_witness :
    githubInit [("GITHUB_TOKEN", "123"), ("GITHUB_ACTIONS", "1"), ("GITHUB_ACTOR", "release-it")]
        "GITHUB_TOKEN" "user/repo" false none false =
      ⟨Except.ok (), [], some "release-it"⟩ :=
  githubInit_ci_bypass
    [("GITHUB_TOKEN", "123"), ("GITHUB_ACTIONS", "1"), ("GITHUB_ACTOR", "release-it")]
    "GITHUB_TOKEN" "user/repo" none false "123" "1" "release-it" rfl rfl rfl

/-! ## GitHub plugin: dry-run release -/

/-- The state threaded through the GitHub `release` phase: the dry-run flag,
the exec log of intended operations, the mutating remote calls actually
performed, and the `isReleased` flag. -/
structure GhReleaseState where
  isDryRun : Bool
  execLog : List String
  remoteCalls : List String
  isReleased : Bool
deriving DecidableEq, Repr

/-- Modelled from the spec: running one mutating remote operation through the
step runner and shell-executor logging. The label of the operation is always
appended to the exec log; the underlying remote call is performed only when
not in dry-run mode, where a synthetic success is recorded instead. -/
def runRemoteStep (label : String) (st : GhReleaseState) : GhReleaseState :=
  { st with
    execLog := st.execLog ++ [label]
    remoteCalls := if st.isDryRun then st.remoteCalls else st.remoteCalls ++ [label] }

/-- Modelled from the spec: the success path of the GitHub `release` phase —
draft the release, upload the configured assets, publish the release — after
which `isReleased` is set. -/
def githubRelease (hasAssets : Bool) (tagName : String) (st : GhReleaseState) :
    GhReleaseState :=
  let st1 := runRemoteStep ("octokit releases#draftRelease (" ++ tagName ++ ")") st
  let st2 := if hasAssets then runRemoteStep "octokit releases#uploadAssets" st1 else st1
  let st3 := runRemoteStep ("octokit releases#publishRelease (" ++ tagName ++ ")") st2
  { st3 with isReleased := true }

/-- Claim C5: in dry-run mode the `release` phase performs no mutating remote
call, its exec log records the same ordered sequence of intended operations
as a live run from the same state would produce, and `isReleased` is `true`
afterwards. -/
theorem githubRelease_dry_run (hasAssets : Bool) (tagName : String) (st : GhReleaseState)
    (h : st.isDryRun = true) :
    (githubRelease hasAssets tagName st).remoteCalls = st.remoteCalls ∧
      (githubRelease hasAssets tagName st).isReleased = true ∧
      (githubRelease hasAssets tagName st).execLog =
        (githubRelease hasAssets tagName { st with isDryRun := false }).execLog := by
  cases hasAssets <;> simp [githubRelease, runRemoteStep, h]

/-- Witness for C5 at a concrete input: a dry run with assets starting from
the empty state performs no remote call, releases, and logs the same sequence
a live run would. -/
theorem githubRelease_dry_run_witness :
    (githubRelease true "v1.0.1" ⟨true, [], [], false⟩).remoteCalls = [] ∧
      (githubRelease true "v1.0.1" ⟨true, [], [], false⟩).isReleased = true ∧
      (githubRelease true "v1.0.1" ⟨true, [], [], false⟩).execLog =
        (githubRelease true "v1.0.1" ⟨false, [], [], false⟩).execLog :=
  githubRelease_dry_run true "v1.0.1" ⟨true, [], [], false⟩ rfl

end ReleaseIt
